import Mathlib

/-!
Shallow embedding of `src/main.py`: a debounced notification scheduler for a
live-chat support workflow.  The webhook endpoint classifies inbound chat
events and arms or cancels per-conversation QStash delayed deliveries whose
handles are recorded in Redis under key `"timer:" ++ chatId`; the `/alert`
endpoint verifies the QStash signature and forwards a rendered message to a
Slack webhook.

External collaborators (Redis, QStash, Slack, the wall clock) are modelled
explicitly:
* the Timer Registry (Redis) is an association list of entries
  (key, stored message id, TTL), with `redis.set` overwriting the key;
* the set of still-pending upstream delayed deliveries is carried in the
  state, so that a `qstash.message.cancel` failure (its exception is caught
  in the source) is observable as the delivery staying pending;
* an `Env` record carries the oracles for `is_operation_hours()`, success of
  the QStash cancel and publish calls, signature verification, and the
  (never surfaced) delivery outcome of the Slack POST;
* fresh QStash message ids are drawn from a counter in the state.
-/

/-- The Alert Payload built in `handle_customer_message` and parsed back in
`receive_alert`: `{"type": ..., "chat_id": ..., "chat_title": ...,
"customer_name": ..., "msg_preview": ...}`. -/
structure AlertPayload where
  type : String
  chat_id : String
  chat_title : String
  customer_name : String
  msg_preview : String
deriving DecidableEq, Repr

/-- One entry of the Timer Registry (Redis): the key `"timer:" ++ chatId`,
the stored QStash message id, and the TTL in seconds passed via `ex=` to
`redis.set`. -/
structure RegEntry where
  key : String
  msgId : String
  ttl : Nat
deriving DecidableEq, Repr

/-- A still-pending upstream delayed delivery held by QStash: its message id,
its body, and its delay in seconds. -/
structure Delivery where
  msgId : String
  body : AlertPayload
  delaySeconds : Nat
deriving DecidableEq, Repr

/-- Observable calls made to the external collaborators, in program order. -/
inductive Eff where
  /-- `qstash.message.cancel(msgId)` was invoked. -/
  | qstashCancel (msgId : String)
  /-- `redis.delete(key)` was invoked. -/
  | redisDelete (key : String)
  /-- `qstash.message.publish_json(url=url, body=body, delay=delaySeconds)`
  returned the fresh message id `msgId`. -/
  | qstashPublish (url : String) (body : AlertPayload) (delaySeconds : Nat) (msgId : String)
  /-- `redis.set(key, msgId, ex=exSeconds)` was invoked. -/
  | redisSet (key : String) (msgId : String) (exSeconds : Nat)
  /-- `send_slack(text)` posted to the Slack webhook; `delivered` is the
  sink-side outcome, which the source code never inspects. -/
  | slackSend (text : String) (delivered : Bool)
deriving DecidableEq, Repr

/-- The collaborator-facing state threaded through the handlers. -/
structure St where
  registry : List RegEntry
  pending : List Delivery
  nextId : Nat
  trace : List Eff
deriving DecidableEq, Repr

/-- The empty initial state: empty registry, no pending deliveries. -/
def initSt : St := ⟨[], [], 0, []⟩

/-- Environment oracles and configuration for one request. -/
structure Env where
  /-- Result of `is_operation_hours()` (pure predicate of the clock). -/
  hours : Bool
  /-- Whether `qstash.message.cancel` succeeds; on failure it raises an
  exception which `cancel_existing_timer` catches and ignores. -/
  cancelOk : Bool
  /-- Whether `qstash.message.publish_json` succeeds; on failure the raised
  exception propagates out of the handler (HTTP 500). -/
  publishOk : Bool
  /-- Whether `qstash.receiver.verify` accepts the signature. -/
  sigValid : Bool
  /-- Delivery outcome of the Slack webhook POST; never surfaced to the
  caller of `send_slack`. -/
  slackDelivered : Bool
  /-- `MY_CHANNEL_MEMBER_ID`. -/
  myMemberId : String
  /-- `BASE_URL`. -/
  baseUrl : String
deriving DecidableEq, Repr

/-- `redis.get`: first value stored under the key, if any. -/
def rget : List RegEntry → String → Option String
  | [], _ => none
  | e :: r, k => if e.key = k then some e.msgId else rget r k

/-- `redis.delete`: drop every entry stored under the key. -/
def rdel : List RegEntry → String → List RegEntry
  | [], _ => []
  | e :: r, k => if e.key = k then rdel r k else e :: rdel r k

/-- `redis.set` with `ex=ttl`: overwrite the key with the new value. -/
def rset (r : List RegEntry) (k v : String) (ttl : Nat) : List RegEntry :=
  ⟨k, v, ttl⟩ :: rdel r k

/-- Number of registry entries stored under a key. -/
def countKey : List RegEntry → String → Nat
  | [], _ => 0
  | e :: r, k => (if e.key = k then 1 else 0) + countKey r k

/-- Fresh QStash message ids, drawn from the state's counter; never the
empty string. -/
def mkMsgId (n : Nat) : String := "qmsg-" ++ toString n

/-- HTTP-level outcome of a handler. -/
inductive Resp where
  /-- The handler returned `{"ok": True}`. -/
  | okTrue
  /-- `HTTPException(status_code=401)` was raised. -/
  | unauthorized
  /-- An uncaught exception propagated (HTTP 500). -/
  | serverError
deriving DecidableEq, Repr

/-- `cancel_existing_timer(chat_id)`:
```
msg_id = redis.get(f"timer:\x7bchat_id\x7d")
if msg_id:
    try: qstash.message.cancel(msg_id)
    except Exception: pass
    redis.delete(f"timer:\x7bchat_id\x7d")
```
The Python truthiness test skips both a missing key and a stored empty
string; the cancel call is attempted either way and its failure (caught) is
visible only as the delivery staying in `pending`. -/
def cancel_existing_timer (env : Env) (chat_id : String) (st : St) : St :=
  match rget st.registry ("timer:" ++ chat_id) with
  | none => st
  | some msg_id =>
      if msg_id = "" then st
      else
        { st with
          registry := rdel st.registry ("timer:" ++ chat_id)
          pending :=
            if env.cancelOk then st.pending.filter (fun d => ¬ d.msgId = msg_id)
            else st.pending
          trace := st.trace ++ [Eff.qstashCancel msg_id,
                                Eff.redisDelete ("timer:" ++ chat_id)] }

/-- `schedule_timer(chat_id, delay_seconds, alert_payload)`:
cancel any existing timer, publish the payload to `BASE_URL + "/alert"` with
the given delay, and record the returned message id in Redis with
`ex = delay_seconds + 60`.  A publish failure propagates (second component
`false`), leaving the state as after the cancellation. -/
def schedule_timer (env : Env) (chat_id : String) (delay_seconds : Nat)
    (alert_payload : AlertPayload) (st : St) : St × Bool :=
  let st1 := cancel_existing_timer env chat_id st
  if env.publishOk then
    ( { st1 with
        registry := rset st1.registry ("timer:" ++ chat_id) (mkMsgId st1.nextId)
                      (delay_seconds + 60)
        pending := st1.pending ++ [⟨mkMsgId st1.nextId, alert_payload, delay_seconds⟩]
        nextId := st1.nextId + 1
        trace := st1.trace ++
          [Eff.qstashPublish (env.baseUrl ++ "/alert") alert_payload delay_seconds
             (mkMsgId st1.nextId),
           Eff.redisSet ("timer:" ++ chat_id) (mkMsgId st1.nextId)
             (delay_seconds + 60)] },
      true )
  else (st1, false)

/-- The parsed-and-defaulted view of an inbound Channel Talk webhook body, as
read by `channel_webhook` / `handle_customer_message` via `.get` with
defaults.  `none` stands for an absent (or JSON-null) field. -/
structure WebhookPayload where
  /-- `payload.get("event", \x7b\x7d).get("type", "")`. -/
  eventType : String
  /-- `payload.get("entity", \x7b\x7d).get("personType", "")`. -/
  personType : String
  /-- `payload.get("chat", \x7b\x7d).get("id")`. -/
  chatId : Option String
  /-- `payload.get("chat", \x7b\x7d).get("name")`. -/
  chatName : Option String
  /-- `payload.get("user", \x7b\x7d).get("name")`. -/
  userName : Option String
  /-- `payload.get("entity", \x7b\x7d).get("plainText")`. -/
  plainText : Option String
  /-- `payload.get("chat", \x7b\x7d).get("assignee")`, with its `id` field. -/
  assignee : Option (Option String)
deriving DecidableEq, Repr

/-- `handle_customer_message(payload)`: outside operating hours do nothing;
otherwise build the Alert Payload from the (defaulted) event fields and arm
a 5-minute `unassigned` timer when the chat has no assignee, a 3-minute
`my_chat` timer when it is assigned to `MY_CHANNEL_MEMBER_ID`, and nothing
when it is assigned to someone else.  The Bool is `false` exactly when an
exception propagates out (failed publish). -/
def handle_customer_message (env : Env) (p : WebhookPayload) (st : St) : St × Bool :=
  if env.hours = false then (st, true)
  else
    let chat_id := p.chatId.getD "unknown"
    let chat_title :=
      match p.chatName with
      | some s => if s = "" then chat_id else s
      | none => chat_id
    let customer_name := p.userName.getD "고객"
    let msg_preview := (p.plainText.getD "").take 50
    match p.assignee with
    | none =>
        schedule_timer env chat_id (5 * 60)
          ⟨"unassigned", chat_id, chat_title, customer_name, msg_preview⟩ st
    | some aid =>
        if aid = some env.myMemberId then
          schedule_timer env chat_id (3 * 60)
            ⟨"my_chat", chat_id, chat_title, customer_name, msg_preview⟩ st
        else (st, true)

/-- `channel_webhook(request)` (`POST /webhook/channel`): dispatch on the
event type and sender kind; customer messages go to
`handle_customer_message`, staff messages and reassignments cancel any
existing timer when the chat id is non-empty; always `return \x7b"ok": True\x7d`
unless an exception propagates out of a schedule call. -/
def channel_webhook (env : Env) (p : WebhookPayload) (st : St) : St × Resp :=
  if p.eventType = "chat_message_created" then
    if p.personType = "user" then
      let r := handle_customer_message env p st
      (r.1, if r.2 then Resp.okTrue else Resp.serverError)
    else if p.personType = "member" then
      let chat_id := p.chatId.getD ""
      if chat_id = "" then (st, Resp.okTrue)
      else (cancel_existing_timer env chat_id st, Resp.okTrue)
    else (st, Resp.okTrue)
  else if p.eventType = "chat_assigned" then
    let chat_id := p.chatId.getD ""
    if chat_id = "" then (st, Resp.okTrue)
    else (cancel_existing_timer env chat_id st, Resp.okTrue)
  else (st, Resp.okTrue)

/-- Running a sequence of webhook events, each under its own environment
(operating hours and collaborator outcomes may differ per event). -/
def runEvents (evs : List (Env × WebhookPayload)) (st : St) : St :=
  evs.foldl (fun s ep => (channel_webhook ep.1 ep.2 s).1) st

/-- The parsed-and-defaulted view of an `/alert` request body, as read by
`receive_alert` via `data.get`; `none` stands for an absent field. -/
structure AlertBody where
  type : Option String
  chat_title : Option String
  customer_name : Option String
  msg_preview : Option String
deriving DecidableEq, Repr

/-- The Slack message rendered for `alert_type == "unassigned"`. -/
def unassignedMsg (chat_title customer_name msg_preview : String) : String :=
  "🔴 *미배정 문의 미응답 알림*\n> 채팅방: " ++ chat_title ++
  "\n> 고객: " ++ customer_name ++
  "\n> 마지막 메시지: " ++ msg_preview ++
  "\n> ⏰ 5분째 미응답 중입니다!"

/-- The Slack message rendered for `alert_type == "my_chat"`. -/
def myChatMsg (chat_title customer_name msg_preview : String) : String :=
  "🟡 *내 문의 미응답 알림*\n> 채팅방: " ++ chat_title ++
  "\n> 고객: " ++ customer_name ++
  "\n> 마지막 메시지: " ++ msg_preview ++
  "\n> ⏰ 3분째 미응답 중입니다!"

/-- `receive_alert(request)` (`POST /alert`): verify the `upstash-signature`
header against the raw body (failure raises `HTTPException(401)` before
anything else happens); then parse the body as JSON (`body = none` models a
body `json.loads` rejects, whose exception propagates); render the message
for a known `type` and post it to Slack; acknowledge `\x7b"ok": True\x7d`, also
for an unknown `type`. -/
def receive_alert (env : Env) (body : Option AlertBody) (st : St) : St × Resp :=
  if env.sigValid = false then (st, Resp.unauthorized)
  else
    match body with
    | none => (st, Resp.serverError)
    | some data =>
        let chat_title := data.chat_title.getD "알 수 없음"
        let customer_name := data.customer_name.getD "고객"
        let msg_preview := data.msg_preview.getD ""
        if data.type = some "unassigned" then
          ({ st with
             trace := st.trace ++
               [Eff.slackSend (unassignedMsg chat_title customer_name msg_preview)
                  env.slackDelivered] },
           Resp.okTrue)
        else if data.type = some "my_chat" then
          ({ st with
             trace := st.trace ++
               [Eff.slackSend (myChatMsg chat_title customer_name msg_preview)
                  env.slackDelivered] },
           Resp.okTrue)
        else (st, Resp.okTrue)

/-- `x` occurs verbatim (as a contiguous substring) in `t`. -/
def containsStr (t x : String) : Prop :=
  ∃ p q : List Char, t.data = p ++ x.data ++ q

/-! ### Registry lemmas -/

theorem rget_rdel_self (r : List RegEntry) (k : String) : rget (rdel r k) k = none := by
  induction r with
  | nil => rfl
  | cons e r ih =>
      by_cases h : e.key = k
      · simp [rdel, h, ih]
      · simp [rdel, rget, h, ih]

theorem countKey_rdel_self (r : List RegEntry) (k : String) : countKey (rdel r k) k = 0 := by
  induction r with
  | nil => rfl
  | cons e r ih =>
      by_cases h : e.key = k
      · simp [rdel, h, ih]
      · simp [rdel, countKey, h, ih]

theorem countKey_rdel_ne (r : List RegEntry) (k k' : String) (h : ¬ k' = k) :
    countKey (rdel r k) k' = countKey r k' := by
  induction r with
  | nil => rfl
  | cons e r ih =>
      by_cases he : e.key = k
      · have hkk : ¬ k = k' := fun hk2 => h hk2.symm
        simp [rdel, he, countKey, hkk, ih]
      · simp [rdel, countKey, he, ih]

theorem countKey_rdel_le (r : List RegEntry) (k k' : String) :
    countKey (rdel r k) k' ≤ countKey r k' := by
  by_cases h : k' = k
  · subst h; simp [countKey_rdel_self]
  · simp [countKey_rdel_ne r k k' h]

theorem countKey_rset (r : List RegEntry) (k v : String) (t : Nat) (k' : String) :
    countKey (rset r k v t) k' = if k = k' then 1 else countKey r k' := by
  by_cases h : k = k'
  · subst h; simp [rset, countKey, countKey_rdel_self]
  · have h' : ¬ k' = k := fun hk => h hk.symm
    simp [rset, countKey, h, countKey_rdel_ne r k k' h']

theorem rget_rset_self (r : List RegEntry) (k v : String) (t : Nat) :
    rget (rset r k v t) k = some v := by
  simp [rset, rget]

/-! ### Shape of `cancel_existing_timer` -/

theorem cancel_of_rget_none (env : Env) (c : String) (st : St)
    (h : rget st.registry ("timer:" ++ c) = none) :
    cancel_existing_timer env c st = st := by
  simp [cancel_existing_timer, h]

theorem cancel_of_rget_empty (env : Env) (c : String) (st : St)
    (h : rget st.registry ("timer:" ++ c) = some "") :
    cancel_existing_timer env c st = st := by
  simp [cancel_existing_timer, h]

theorem cancel_of_rget_some (env : Env) (c : String) (st : St) (m : String)
    (h : rget st.registry ("timer:" ++ c) = some m) (hne : ¬ m = "") :
    cancel_existing_timer env c st =
      { st with
        registry := rdel st.registry ("timer:" ++ c)
        pending :=
          if env.cancelOk then st.pending.filter (fun d => ¬ d.msgId = m)
          else st.pending
        trace := st.trace ++ [Eff.qstashCancel m, Eff.redisDelete ("timer:" ++ c)] } := by
  simp [cancel_existing_timer, h, hne]

theorem rget_cancel_self (env : Env) (c : String) (st : St)
    (hwf : ¬ rget st.registry ("timer:" ++ c) = some "") :
    rget (cancel_existing_timer env c st).registry ("timer:" ++ c) = none := by
  rcases h : rget st.registry ("timer:" ++ c) with _ | m
  · rw [cancel_of_rget_none env c st h, h]
  · have hne : ¬ m = "" := by
      intro hm; exact hwf (hm ▸ h)
    rw [cancel_of_rget_some env c st m h hne]
    simpa using rget_rdel_self st.registry ("timer:" ++ c)

theorem cancel_nextId (env : Env) (c : String) (st : St) :
    (cancel_existing_timer env c st).nextId = st.nextId := by
  unfold cancel_existing_timer
  rcases rget st.registry ("timer:" ++ c) with _ | m
  · rfl
  · by_cases hm : m = "" <;> simp [hm]

theorem cancel_countKey_le (env : Env) (c : String) (st : St) (k : String) :
    countKey (cancel_existing_timer env c st).registry k ≤ countKey st.registry k := by
  unfold cancel_existing_timer
  rcases rget st.registry ("timer:" ++ c) with _ | m
  · simp
  · by_cases hm : m = ""
    · simp [hm]
    · simpa [hm] using countKey_rdel_le st.registry ("timer:" ++ c) k

/-! ### The single-live-handle invariant (claim C1) -/

/-- At most one registry entry is recorded per key. -/
def RegInv (st : St) : Prop := ∀ k : String, countKey st.registry k ≤ 1

theorem regInv_cancel (env : Env) (c : String) (st : St) (h : RegInv st) :
    RegInv (cancel_existing_timer env c st) :=
  fun k => le_trans (cancel_countKey_le env c st k) (h k)

theorem schedule_countKey (env : Env) (c : String) (d : Nat) (ap : AlertPayload)
    (st : St) (k : String) :
    countKey (schedule_timer env c d ap st).1.registry k ≤
      max 1 (countKey st.registry k) := by
  unfold schedule_timer
  by_cases hp : env.publishOk
  · simp only [hp, if_true]
    rw [countKey_rset]
    by_cases hk : "timer:" ++ c = k
    · simp [hk]
    · simp only [hk, if_false]
      exact le_trans (cancel_countKey_le env c st k) (le_max_right 1 _)
  · simp only [hp, if_false]
    exact le_trans (cancel_countKey_le env c st k) (le_max_right 1 _)

theorem regInv_schedule (env : Env) (c : String) (d : Nat) (ap : AlertPayload)
    (st : St) (h : RegInv st) : RegInv (schedule_timer env c d ap st).1 := by
  intro k
  refine le_trans (schedule_countKey env c d ap st k) ?_
  exact max_le le_rfl (h k)

theorem regInv_handle (env : Env) (p : WebhookPayload) (st : St) (h : RegInv st) :
    RegInv (handle_customer_message env p st).1 := by
  unfold handle_customer_message
  by_cases hh : env.hours = false
  · simpa [hh] using h
  · simp only [hh, if_false]
    rcases p.assignee with _ | aid
    · exact regInv_schedule env _ _ _ st h
    · by_cases ha : aid = some env.myMemberId
      · simpa [ha] using regInv_schedule env _ _ _ st h
      · simpa [ha] using h

theorem regInv_webhook (env : Env) (p : WebhookPayload) (st : St) (h : RegInv st) :
    RegInv (channel_webhook env p st).1 := by
  unfold channel_webhook
  by_cases h1 : p.eventType = "chat_message_created"
  · simp only [h1, if_true]
    by_cases h2 : p.personType = "user"
    · simpa [h2] using regInv_handle env p st h
    · simp only [h2, if_false]
      by_cases h3 : p.personType = "member"
      · simp only [h3, if_true]
        by_cases h4 : p.chatId.getD "" = ""
        · simpa [h4] using h
        · simpa [h4] using regInv_cancel env (p.chatId.getD "") st h
      · simpa [h3] using h
  · simp only [h1, if_false]
    by_cases h5 : p.eventType = "chat_assigned"
    · simp only [h5, if_true]
      by_cases h4 : p.chatId.getD "" = ""
      · simpa [h4] using h
      · simpa [h4] using regInv_cancel env (p.chatId.getD "") st h
    · simpa [h5] using h

theorem regInv_runEvents (evs : List (Env × WebhookPayload)) (st : St) (h : RegInv st) :
    RegInv (runEvents evs st) := by
  induction evs generalizing st with
  | nil => simpa [runEvents] using h
  | cons ep evs ih =>
      have := regInv_webhook ep.1 ep.2 st h
      simpa [runEvents, List.foldl_cons] using ih _ this

/-- C1: For every sequence of classified events on a single conversation id,
at most one delayed-delivery handle is recorded live in the Timer Registry
for that conversation at any time: each arm first removes any existing
registry entry (inside `cancel_existing_timer`, and again by the overwrite
semantics of `redis.set`) before writing the new handle, and cancels delete
the entry.  Formally: running any sequence of webhook events (each under an
arbitrary environment) from the empty initial state leaves at most one
registry entry under any key — in particular under `"timer:" ++ c` for
every conversation id `c`.  Since the sequence is arbitrary, this holds of
every intermediate state as well. -/
theorem claim_C1_single_live_handle (evs : List (Env × WebhookPayload)) (k : String) :
    countKey (runEvents evs initSt).registry k ≤ 1 :=
  regInv_runEvents evs initSt (fun _ => by simp [initSt, countKey]) k

/-- C10: For every conversation with a recorded timer, `cancel_existing_timer`
deletes the registry entry even when the upstream `qstash.message.cancel`
call raises (the exception is caught): afterwards the registry query yields
absent for every environment, and when the upstream cancel failed
(`cancelOk = false`) the delivery is in fact still pending upstream. -/
theorem claim_C10_delete_despite_cancel_failure (env : Env) (c : String) (st : St)
    (m : String) (hm : rget st.registry ("timer:" ++ c) = some m) (hne : ¬ m = "") :
    rget (cancel_existing_timer env c st).registry ("timer:" ++ c) = none ∧
      (env.cancelOk = false → (cancel_existing_timer env c st).pending = st.pending) := by
  rw [cancel_of_rget_some env c st m hm hne]
  constructor
  · simpa using rget_rdel_self st.registry ("timer:" ++ c)
  · intro hco; simp [hco]

/-- C5: Re-arming a conversation that already holds a live handle `m` first
invokes the collaborator's cancel with `m` (and deletes the old entry),
then publishes the new delayed delivery, and finally stores the fresh
handle under the conversation's key with a TTL of exactly
`delay + 60` seconds, which is strictly greater than the delivery delay.
The trace equality fixes the order: cancel of the prior handle strictly
precedes the publish of the new delivery. -/
theorem claim_C5_rearm_cancels_prior_then_stores (env : Env) (c : String) (d : Nat)
    (ap : AlertPayload) (st : St) (m : String)
    (hm : rget st.registry ("timer:" ++ c) = some m) (hne : ¬ m = "")
    (hpub : env.publishOk = true) :
    (schedule_timer env c d ap st).1.trace =
      st.trace ++ [Eff.qstashCancel m, Eff.redisDelete ("timer:" ++ c),
        Eff.qstashPublish (env.baseUrl ++ "/alert") ap d (mkMsgId st.nextId),
        Eff.redisSet ("timer:" ++ c) (mkMsgId st.nextId) (d + 60)] ∧
    rget (schedule_timer env c d ap st).1.registry ("timer:" ++ c)
      = some (mkMsgId st.nextId) ∧
    (∃ e : RegEntry, e ∈ (schedule_timer env c d ap st).1.registry ∧
      e.key = "timer:" ++ c ∧ e.msgId = mkMsgId st.nextId ∧ e.ttl = d + 60) ∧
    d < d + 60 := by
  unfold schedule_timer
  rw [cancel_of_rget_some env c st m hm hne]
  refine ⟨by simp [hpub], by simp [hpub, rget_rset_self], ?_, by omega⟩
  refine ⟨⟨"timer:" ++ c, mkMsgId st.nextId, d + 60⟩, ?_, rfl, rfl, rfl⟩
  simp [hpub, rset]

/-- C4: A `HumanActivity` event — a staff (`member`) message or a
`chat_assigned` reassignment — on a conversation with a non-empty id makes
the webhook unconditionally run `cancel_existing_timer` and acknowledge
`ok`; an immediately following registry query yields absent (given the
registry does not hold the degenerate empty-string handle, which no arm
ever writes), and when no timer exists the cancellation is an error-free
no-op. -/
theorem claim_C4_human_activity_cancels (env : Env) (p : WebhookPayload) (st : St)
    (cid : String)
    (hshape : (p.eventType = "chat_message_created" ∧ p.personType = "member")
      ∨ p.eventType = "chat_assigned")
    (hcid : p.chatId = some cid) (hne : ¬ cid = "")
    (hwf : ¬ rget st.registry ("timer:" ++ cid) = some "") :
    channel_webhook env p st = (cancel_existing_timer env cid st, Resp.okTrue) ∧
    rget (cancel_existing_timer env cid st).registry ("timer:" ++ cid) = none ∧
    (rget st.registry ("timer:" ++ cid) = none → cancel_existing_timer env cid st = st) := by
  refine ⟨?_, rget_cancel_self env cid st hwf, cancel_of_rget_none env cid st⟩
  rcases hshape with ⟨h1, h2⟩ | h2
  · simp [channel_webhook, h1, h2, hcid, hne]
  · simp [channel_webhook, h2, hcid, hne]

theorem webhook_ok_of_publishOk (env : Env) (p : WebhookPayload) (st : St)
    (hpub : env.publishOk = true) :
    (channel_webhook env p st).2 = Resp.okTrue := by
  have hs : ∀ (c : String) (d : Nat) (ap : AlertPayload) (st0 : St),
      (schedule_timer env c d ap st0).2 = true := by
    intro c d ap st0; simp [schedule_timer, hpub]
  have hh : (handle_customer_message env p st).2 = true := by
    unfold handle_customer_message
    by_cases hhrs : env.hours = false
    · simp [hhrs]
    · simp only [hhrs, if_false]
      rcases ha : p.assignee with _ | aid
      · simpa using hs _ _ _ _
      · by_cases haid : aid = some env.myMemberId
        · simpa [haid] using hs _ _ _ _
        · simp [haid]
  unfold channel_webhook
  by_cases h1 : p.eventType = "chat_message_created"
  · by_cases h2 : p.personType = "user"
    · simp [h1, h2, hh]
    · by_cases h3 : p.personType = "member"
      · by_cases h4 : p.chatId.getD "" = "" <;> simp [h1, h2, h3, h4]
      · simp [h1, h2, h3]
  · by_cases h5 : p.eventType = "chat_assigned"
    · by_cases h4 : p.chatId.getD "" = "" <;> simp [h1, h5, h4]
    · simp [h1, h5]

/-- C9: The inbound event endpoint acknowledges `ok` for every parseable
event body, whatever the event type, the classification outcome, or the
internal timer decisions; the only handler-path failure is an upstream
publish failure, which the source deliberately propagates (a failed arm
means no alert will ever fire), so the acknowledgment is stated under
`publishOk = true`. -/
theorem claim_C9_webhook_always_ok (env : Env) (p : WebhookPayload) (st : St)
    (hpub : env.publishOk = true) :
    (channel_webhook env p st).2 = Resp.okTrue :=
  webhook_ok_of_publishOk env p st hpub

/-- C2: For a `CustomerMessage` with null assignee (`chat.get("assignee")`
is `None`): outside operating hours the webhook changes nothing and still
acknowledges `ok`; within operating hours (and with the upstream publish
succeeding) it arms a timer with delay `5 * 60` seconds whose payload has
kind `"unassigned"`, and a registry entry for the conversation id holding
the fresh handle exists afterwards. -/
theorem claim_C2_unassigned_five_minutes (env : Env) (p : WebhookPayload) (st : St)
    (he : p.eventType = "chat_message_created") (hp : p.personType = "user")
    (ha : p.assignee = none) :
    (env.hours = false → channel_webhook env p st = (st, Resp.okTrue)) ∧
    (env.hours = true → env.publishOk = true →
      ∃ ap : AlertPayload, ap.type = "unassigned" ∧
        (channel_webhook env p st).2 = Resp.okTrue ∧
        (channel_webhook env p st).1.pending =
          (cancel_existing_timer env (p.chatId.getD "unknown") st).pending
            ++ [⟨mkMsgId st.nextId, ap, 5 * 60⟩] ∧
        rget (channel_webhook env p st).1.registry
            ("timer:" ++ p.chatId.getD "unknown") = some (mkMsgId st.nextId)) := by
  constructor
  · intro hh
    simp [channel_webhook, he, hp, handle_customer_message, hh]
  · intro hh hpub
    refine ⟨⟨"unassigned", p.chatId.getD "unknown",
      (match p.chatName with
       | some s => if s = "" then p.chatId.getD "unknown" else s
       | none => p.chatId.getD "unknown"),
      p.userName.getD "고객", (p.plainText.getD "").take 50⟩, rfl, ?_, ?_, ?_⟩
    · exact webhook_ok_of_publishOk env p st hpub
    · simp [channel_webhook, he, hp, handle_customer_message, hh, ha,
            schedule_timer, hpub, cancel_nextId]
    · simp [channel_webhook, he, hp, handle_customer_message, hh, ha,
            schedule_timer, hpub, cancel_nextId, rget_rset_self]

/-- C3: A `CustomerMessage` within operating hours whose chat is assigned to
the operating identity (`assignee["id"] == MY_CHANNEL_MEMBER_ID`) arms a
timer with delay `3 * 60` seconds and the my-conversation payload kind
(spelled `"my_chat"` in the payload), recording the fresh handle in the
registry; a `CustomerMessage` whose chat is assigned to anyone else arms
nothing and leaves the state untouched. -/
theorem claim_C3_my_conversation_three_minutes (env : Env) (p : WebhookPayload)
    (st : St) (aid : Option String)
    (he : p.eventType = "chat_message_created") (hp : p.personType = "user")
    (ha : p.assignee = some aid) :
    (aid = some env.myMemberId → env.hours = true → env.publishOk = true →
      ∃ ap : AlertPayload, ap.type = "my_chat" ∧
        (channel_webhook env p st).2 = Resp.okTrue ∧
        (channel_webhook env p st).1.pending =
          (cancel_existing_timer env (p.chatId.getD "unknown") st).pending
            ++ [⟨mkMsgId st.nextId, ap, 3 * 60⟩] ∧
        rget (channel_webhook env p st).1.registry
            ("timer:" ++ p.chatId.getD "unknown") = some (mkMsgId st.nextId)) ∧
    (¬ aid = some env.myMemberId → channel_webhook env p st = (st, Resp.okTrue)) := by
  constructor
  · intro haid hh hpub
    refine ⟨⟨"my_chat", p.chatId.getD "unknown",
      (match p.chatName with
       | some s => if s = "" then p.chatId.getD "unknown" else s
       | none => p.chatId.getD "unknown"),
      p.userName.getD "고객", (p.plainText.getD "").take 50⟩, rfl, ?_, ?_, ?_⟩
    · exact webhook_ok_of_publishOk env p st hpub
    · simp [channel_webhook, he, hp, handle_customer_message, hh, ha, haid,
            schedule_timer, hpub, cancel_nextId]
    · simp [channel_webhook, he, hp, handle_customer_message, hh, ha, haid,
            schedule_timer, hpub, cancel_nextId, rget_rset_self]
  · intro haid
    by_cases hh : env.hours = false
    · simp [channel_webhook, he, hp, handle_customer_message, hh]
    · simp [channel_webhook, he, hp, handle_customer_message, hh, ha, haid]

/-! ### String containment -/

theorem data_append (a b : String) : (a ++ b).data = a.data ++ b.data := by
  cases a; cases b; rfl

theorem contains_unassigned_title (ct cn mp : String) :
    containsStr (unassignedMsg ct cn mp) ct := by
  refine ⟨("🔴 *미배정 문의 미응답 알림*\n> 채팅방: " : String).data,
    (("\n> 고객: " ++ cn ++ "\n> 마지막 메시지: " ++ mp ++
      "\n> ⏰ 5분째 미응답 중입니다!" : String)).data, ?_⟩
  simp [unassignedMsg, data_append, List.append_assoc]

theorem contains_unassigned_customer (ct cn mp : String) :
    containsStr (unassignedMsg ct cn mp) cn := by
  refine ⟨(("🔴 *미배정 문의 미응답 알림*\n> 채팅방: " ++ ct ++ "\n> 고객: " : String)).data,
    (("\n> 마지막 메시지: " ++ mp ++ "\n> ⏰ 5분째 미응답 중입니다!" : String)).data, ?_⟩
  simp [unassignedMsg, data_append, List.append_assoc]

theorem contains_unassigned_preview (ct cn mp : String) :
    containsStr (unassignedMsg ct cn mp) mp := by
  refine ⟨(("🔴 *미배정 문의 미응답 알림*\n> 채팅방: " ++ ct ++ "\n> 고객: " ++ cn ++
      "\n> 마지막 메시지: " : String)).data,
    ("\n> ⏰ 5분째 미응답 중입니다!" : String).data, ?_⟩
  simp [unassignedMsg, data_append, List.append_assoc]

theorem contains_unassigned_five (ct cn mp : String) :
    containsStr (unassignedMsg ct cn mp) "5" := by
  have hd : ("\n> ⏰ 5분째 미응답 중입니다!" : String).data =
      ("\n> ⏰ " : String).data ++ ("5" : String).data ++
        ("분째 미응답 중입니다!" : String).data := by decide
  refine ⟨(("🔴 *미배정 문의 미응답 알림*\n> 채팅방: " ++ ct ++ "\n> 고객: " ++ cn ++
      "\n> 마지막 메시지: " : String)).data ++ mp.data ++ ("\n> ⏰ " : String).data,
    ("분째 미응답 중입니다!" : String).data, ?_⟩
  simp [unassignedMsg, data_append, List.append_assoc, hd]

/-! ### The alert dispatcher -/

/-- C6: A fire-callback request whose signature fails verification is
rejected with the 401-equivalent `unauthorized` outcome before anything
else happens: the state — in particular the trace of notification-sink
calls — is untouched, whatever the request body. -/
theorem claim_C6_invalid_signature_rejected (env : Env) (body : Option AlertBody)
    (st : St) (hsig : env.sigValid = false) :
    receive_alert env body st = (st, Resp.unauthorized) := by
  simp [receive_alert, hsig]

/-- C7: A fire-callback request with a valid signature and payload kind
`"unassigned"` makes exactly one notification-sink call — the trace is
extended by exactly one `slackSend` — whose text contains the conversation
title, the customer name and the message preview verbatim, and the literal
duration figure `"5"`. -/
theorem claim_C7_unassigned_sink_call (env : Env) (d : AlertBody) (st : St)
    (ct cn mp : String)
    (hsig : env.sigValid = true) (ht : d.type = some "unassigned")
    (hct : d.chat_title = some ct) (hcn : d.customer_name = some cn)
    (hmp : d.msg_preview = some mp) :
    receive_alert env (some d) st =
      ({ st with trace := st.trace ++
          [Eff.slackSend (unassignedMsg ct cn mp) env.slackDelivered] },
       Resp.okTrue) ∧
    containsStr (unassignedMsg ct cn mp) ct ∧
    containsStr (unassignedMsg ct cn mp) cn ∧
    containsStr (unassignedMsg ct cn mp) mp ∧
    containsStr (unassignedMsg ct cn mp) "5" := by
  refine ⟨?_, contains_unassigned_title ct cn mp, contains_unassigned_customer ct cn mp,
    contains_unassigned_preview ct cn mp, contains_unassigned_five ct cn mp⟩
  simp [receive_alert, hsig, ht, hct, hcn, hmp]

/-- C8: Once signature verification and JSON parsing have succeeded, the
fire-callback endpoint acknowledges `ok` for every payload — an unknown (or
absent) kind is a successful no-op with no dispatch — and for either
delivery outcome of the notification-sink call, which the code never
inspects. -/
theorem claim_C8_ack_after_verification (env : Env) (data : AlertBody) (st : St)
    (hsig : env.sigValid = true) :
    (receive_alert env (some data) st).2 = Resp.okTrue ∧
    (¬ data.type = some "unassigned" → ¬ data.type = some "my_chat" →
      receive_alert env (some data) st = (st, Resp.okTrue)) := by
  by_cases h1 : data.type = some "unassigned"
  · refine ⟨by simp [receive_alert, hsig, h1], fun hc _ => absurd h1 hc⟩
  · by_cases h2 : data.type = some "my_chat"
    · refine ⟨by simp [receive_alert, hsig, h1, h2], fun _ hc => absurd h2 hc⟩
    · refine ⟨?_, fun _ _ => ?_⟩ <;> simp [receive_alert, hsig, h1, h2]

/-! ### Concrete fixtures for the witnesses -/

/-- An in-hours environment with all collaborators succeeding. -/
def wEnv : Env := ⟨true, true, true, true, true, "me-1", "https://alerts.example"⟩

/-- Like `wEnv`, but the upstream `qstash.message.cancel` call raises. -/
def wEnvNoCancel : Env := ⟨true, false, true, true, true, "me-1", "https://alerts.example"⟩

/-- Like `wEnv`, but signature verification rejects. -/
def wEnvBadSig : Env := ⟨true, true, true, false, true, "me-1", "https://alerts.example"⟩

/-- A customer message on an unassigned chat. -/
def wPayloadU : WebhookPayload :=
  ⟨"chat_message_created", "user", some "c1", some "Room 1", some "Alice",
   some "hello there", none⟩

/-- A customer message on a chat assigned to the operating identity. -/
def wPayloadMine : WebhookPayload :=
  ⟨"chat_message_created", "user", some "c2", some "Room 2", some "Bob",
   some "need help", some (some "me-1")⟩

/-- A staff message on chat `c1`. -/
def wPayloadMember : WebhookPayload :=
  ⟨"chat_message_created", "member", some "c1", none, none, some "on it", none⟩

/-- The alert payload armed for `wPayloadU`. -/
def wAlertAp : AlertPayload := ⟨"unassigned", "c1", "Room 1", "Alice", "hello there"⟩

/-- A state with one live handle `qmsg-0` for chat `c1` and its pending
delivery upstream. -/
def wStArmed : St := ⟨[⟨"timer:c1", "qmsg-0", 360⟩], [⟨"qmsg-0", wAlertAp, 300⟩], 1, []⟩

/-- A well-formed `unassigned` fire-callback body. -/
def wAlertBody : AlertBody :=
  ⟨some "unassigned", some "VIP Room", some "Kim", some "where is my order"⟩

/-- A fire-callback body with an unknown kind. -/
def wAlertBodyUnknown : AlertBody := ⟨some "mystery", none, none, none⟩

theorem claim_C2_unassigned_five_minutes_witness :
    (wEnv.hours = false → channel_webhook wEnv wPayloadU initSt = (initSt, Resp.okTrue)) ∧
    (wEnv.hours = true → wEnv.publishOk = true →
      ∃ ap : AlertPayload, ap.type = "unassigned" ∧
        (channel_webhook wEnv wPayloadU initSt).2 = Resp.okTrue ∧
        (channel_webhook wEnv wPayloadU initSt).1.pending =
          (cancel_existing_timer wEnv (wPayloadU.chatId.getD "unknown") initSt).pending
            ++ [⟨mkMsgId initSt.nextId, ap, 5 * 60⟩] ∧
        rget (channel_webhook wEnv wPayloadU initSt).1.registry
            ("timer:" ++ wPayloadU.chatId.getD "unknown") = some (mkMsgId initSt.nextId)) :=
  claim_C2_unassigned_five_minutes wEnv wPayloadU initSt rfl rfl rfl

theorem claim_C3_my_conversation_three_minutes_witness :
    (some "me-1" = some wEnv.myMemberId → wEnv.hours = true → wEnv.publishOk = true →
      ∃ ap : AlertPayload, ap.type = "my_chat" ∧
        (channel_webhook wEnv wPayloadMine initSt).2 = Resp.okTrue ∧
        (channel_webhook wEnv wPayloadMine initSt).1.pending =
          (cancel_existing_timer wEnv (wPayloadMine.chatId.getD "unknown") initSt).pending
            ++ [⟨mkMsgId initSt.nextId, ap, 3 * 60⟩] ∧
        rget (channel_webhook wEnv wPayloadMine initSt).1.registry
            ("timer:" ++ wPayloadMine.chatId.getD "unknown") = some (mkMsgId initSt.nextId)) ∧
    (¬ some "me-1" = some wEnv.myMemberId →
      channel_webhook wEnv wPayloadMine initSt = (initSt, Resp.okTrue)) :=
  claim_C3_my_conversation_three_minutes wEnv wPayloadMine initSt (some "me-1") rfl rfl rfl

theorem claim_C4_human_activity_cancels_witness :
    channel_webhook wEnv wPayloadMember wStArmed =
      (cancel_existing_timer wEnv "c1" wStArmed, Resp.okTrue) ∧
    rget (cancel_existing_timer wEnv "c1" wStArmed).registry ("timer:" ++ "c1") = none ∧
    (rget wStArmed.registry ("timer:" ++ "c1") = none →
      cancel_existing_timer wEnv "c1" wStArmed = wStArmed) :=
  claim_C4_human_activity_cancels wEnv wPayloadMember wStArmed "c1"
    (Or.inl ⟨rfl, rfl⟩) rfl (by decide) (by decide)

theorem claim_C5_rearm_cancels_prior_then_stores_witness :
    (schedule_timer wEnv "c1" 300 wAlertAp wStArmed).1.trace =
      wStArmed.trace ++ [Eff.qstashCancel "qmsg-0", Eff.redisDelete ("timer:" ++ "c1"),
        Eff.qstashPublish (wEnv.baseUrl ++ "/alert") wAlertAp 300 (mkMsgId wStArmed.nextId),
        Eff.redisSet ("timer:" ++ "c1") (mkMsgId wStArmed.nextId) (300 + 60)] ∧
    rget (schedule_timer wEnv "c1" 300 wAlertAp wStArmed).1.registry ("timer:" ++ "c1")
      = some (mkMsgId wStArmed.nextId) ∧
    (∃ e : RegEntry, e ∈ (schedule_timer wEnv "c1" 300 wAlertAp wStArmed).1.registry ∧
      e.key = "timer:" ++ "c1" ∧ e.msgId = mkMsgId wStArmed.nextId ∧ e.ttl = 300 + 60) ∧
    300 < 300 + 60 :=
  claim_C5_rearm_cancels_prior_then_stores wEnv "c1" 300 wAlertAp wStArmed "qmsg-0"
    (by decide) (by decide) rfl

theorem claim_C6_invalid_signature_rejected_witness :
    receive_alert wEnvBadSig (some wAlertBody) initSt = (initSt, Resp.unauthorized) :=
  claim_C6_invalid_signature_rejected wEnvBadSig (some wAlertBody) initSt rfl

theorem claim_C7_unassigned_sink_call_witness :
    receive_alert wEnv (some wAlertBody) initSt =
      ({ initSt with trace := initSt.trace ++
          [Eff.slackSend (unassignedMsg "VIP Room" "Kim" "where is my order")
            wEnv.slackDelivered] },
       Resp.okTrue) ∧
    containsStr (unassignedMsg "VIP Room" "Kim" "where is my order") "VIP Room" ∧
    containsStr (unassignedMsg "VIP Room" "Kim" "where is my order") "Kim" ∧
    containsStr (unassignedMsg "VIP Room" "Kim" "where is my order") "where is my order" ∧
    containsStr (unassignedMsg "VIP Room" "Kim" "where is my order") "5" :=
  claim_C7_unassigned_sink_call wEnv wAlertBody initSt "VIP Room" "Kim"
    "where is my order" rfl rfl rfl rfl rfl

theorem claim_C8_ack_after_verification_witness :
    (receive_alert wEnv (some wAlertBodyUnknown) initSt).2 = Resp.okTrue ∧
    (¬ wAlertBodyUnknown.type = some "unassigned" →
      ¬ wAlertBodyUnknown.type = some "my_chat" →
      receive_alert wEnv (some wAlertBodyUnknown) initSt = (initSt, Resp.okTrue)) :=
  claim_C8_ack_after_verification wEnv wAlertBodyUnknown initSt rfl

theorem claim_C9_webhook_always_ok_witness :
    (channel_webhook wEnv wPayloadU initSt).2 = Resp.okTrue :=
  claim_C9_webhook_always_ok wEnv wPayloadU initSt rfl

theorem claim_C10_delete_despite_cancel_failure_witness :
    rget (cancel_existing_timer wEnvNoCancel "c1" wStArmed).registry ("timer:" ++ "c1")
      = none ∧
    (wEnvNoCancel.cancelOk = false →
      (cancel_existing_timer wEnvNoCancel "c1" wStArmed).pending = wStArmed.pending) :=
  claim_C10_delete_despite_cancel_failure wEnvNoCancel "c1" wStArmed "qmsg-0"
    (by decide) (by decide)
